import Mathlib

/-!
Verification of lufia/httpclientutil (retry transport, Retry-After parsing,
sender composition, closable transport) against its specification.

The Go sources are shallowly embedded:
* `ParseRetryAfter` (fn.go) is translated directly; the standard-library
  helpers it calls (`strconv.Atoi`, `http.ParseTime`, `Header.Get`) are
  modelled at their boundary by `goAtoi`, `goParseTime` and `headerGet`.
* `RetriableTransport.RoundTrip` (transport.go) is an event-trace
  interpreter `roundTripLoop`: the inner transport is represented by a
  finite script of attempt results, the waiter by a function from the
  call index to an optional error, and every observable action (inner
  call, `Wait`, `SetNext`, body read/close) is recorded as an `Event`.
  `time.Now()` is modelled as a fixed `now` parameter.
* `WithTransport`/`ContinueWith` (transport.go) are embedded over senders
  that return a print trace together with their result.
* Durations are `Int` nanoseconds (`second = 10^9`), statuses are `Nat`,
  times are `Int` nanoseconds since the Unix epoch.
-/

/-- Model of a Go error value as seen by `isTemporary` (transport.go):
whether the value implements the `temporaryer` interface, and what its
`Temporary()` method returns. -/
structure Err where
  asTemporaryer : Bool
  temporary : Bool
  deriving DecidableEq

/-- Model of `context.Context` restricted to what the claims observe:
whether the context has been cancelled. `context.Background()` is the
never-cancelled context. -/
structure Ctx where
  cancelled : Bool
  deriving DecidableEq

/-- Model of `context.Background()`. -/
def Ctx.background : Ctx := ⟨false⟩

/-- Model of `*http.Request` restricted to what the claims observe: the
request's own context. -/
structure Request where
  ctx : Ctx
  deriving DecidableEq

/-- Model of `*http.Response`: the status code and the header as an
association list (Go `http.Header` restricted to single-valued keys,
which is all the code reads). -/
structure Response where
  statusCode : Nat
  header : List (String × String)
  deriving DecidableEq

/-- Model of `http.Header.Get`: the first value stored under the key, or
`""` when the key is absent. -/
def headerGet (h : List (String × String)) (key : String) : String :=
  match h.find? (fun p => p.1 == key) with
  | some p => p.2
  | none => ""

/-- One nanosecond-valued `time.Second`. -/
def second : Int := 1000000000

/-- Numeric value of a decimal digit character. -/
def digitVal (c : Char) : Nat := c.toNat - 48

/-- Accumulating decimal parser: `none` as soon as a non-digit appears. -/
def digitsAcc : List Char → Nat → Option Nat
  | [], acc => some acc
  | c :: cs, acc => if c.isDigit then digitsAcc cs (acc * 10 + digitVal c) else none

/-- Decimal parser for a non-empty all-digit string. -/
def digitsToNat : List Char → Option Nat
  | [] => none
  | c :: cs => digitsAcc (c :: cs) 0

/-- Boundary model of Go `strconv.Atoi`: an optional single leading sign
followed by one or more decimal digits; anything else is an error
(`none`). Overflow, which Go also reports as an error, is not modelled;
no input in this development comes near it. -/
def goAtoi (s : String) : Option Int :=
  match s.toList with
  | [] => none
  | c :: rest =>
    if c == '+' then (digitsToNat rest).map (fun n => (n : Int))
    else if c == '-' then (digitsToNat rest).map (fun n => -(n : Int))
    else (digitsToNat (c :: rest)).map (fun n => (n : Int))

/-- The three-letter weekday names accepted by the RFC 1123 layout.
Go's parser accepts any valid name and ignores whether it matches the
date. -/
def weekdayNames : List (List Char) :=
  [['M','o','n'], ['T','u','e'], ['W','e','d'], ['T','h','u'],
   ['F','r','i'], ['S','a','t'], ['S','u','n']]

/-- Month name to month number for the RFC 1123 layout. -/
def monthNum (m : List Char) : Option Nat :=
  if m = ['J','a','n'] then some 1 else if m = ['F','e','b'] then some 2
  else if m = ['M','a','r'] then some 3 else if m = ['A','p','r'] then some 4
  else if m = ['M','a','y'] then some 5 else if m = ['J','u','n'] then some 6
  else if m = ['J','u','l'] then some 7 else if m = ['A','u','g'] then some 8
  else if m = ['S','e','p'] then some 9 else if m = ['O','c','t'] then some 10
  else if m = ['N','o','v'] then some 11 else if m = ['D','e','c'] then some 12
  else none

/-- Two decimal digit characters to their value. -/
def twoDigits (a b : Char) : Option Nat :=
  if a.isDigit && b.isDigit then some (digitVal a * 10 + digitVal b) else none

/-- Four decimal digit characters to their value. -/
def fourDigits (a b c d : Char) : Option Nat :=
  if a.isDigit && b.isDigit && c.isDigit && d.isDigit then
    some (((digitVal a * 10 + digitVal b) * 10 + digitVal c) * 10 + digitVal d)
  else none

/-- Gregorian leap-year predicate. -/
def isLeapYear (y : Nat) : Bool := (y % 4 == 0 && y % 100 != 0) || y % 400 == 0

/-- Days strictly before month `m` (1-based) in a year whose leap flag is
`leap`. -/
def daysBeforeMonth (m : Nat) (leap : Bool) : Nat :=
  (match m with
   | 1 => 0 | 2 => 31 | 3 => 59 | 4 => 90 | 5 => 120 | 6 => 151
   | 7 => 181 | 8 => 212 | 9 => 243 | 10 => 273 | 11 => 304 | _ => 334)
  + (if leap && 2 < m then 1 else 0)

/-- Rata-die day number of the Gregorian date `y-m-d` (day 1 is
0001-01-01). -/
def rataDie (y m d : Nat) : Nat :=
  365 * (y - 1) + (y - 1) / 4 - (y - 1) / 100 + (y - 1) / 400
    + daysBeforeMonth m (isLeapYear y) + d

/-- Seconds since the Unix epoch of the given UTC civil time
(1970-01-01 has rata-die number 719163). -/
def epochSeconds (y m d hh mm ss : Nat) : Int :=
  ((rataDie y m d : Int) - 719163) * 86400 + ((hh * 3600 + mm * 60 + ss : Nat) : Int)

/-- Date/time part of the RFC 1123 layout: `"02 Jan 2006 15:04:05 GMT"`,
returning nanoseconds since the epoch. -/
def parseDateChars : List Char → Option Int
  | [d1, d2, ' ', m1, m2, m3, ' ', y1, y2, y3, y4, ' ',
     h1, h2, ':', n1, n2, ':', s1, s2, ' ', 'G', 'M', 'T'] =>
    match twoDigits d1 d2, monthNum [m1, m2, m3], fourDigits y1 y2 y3 y4,
          twoDigits h1 h2, twoDigits n1 n2, twoDigits s1 s2 with
    | some d, some m, some y, some hh, some nn, some ss =>
      if 1 ≤ d && d ≤ 31 && hh ≤ 23 && nn ≤ 59 && ss ≤ 59 then
        some (epochSeconds y m d hh nn ss * second)
      else none
    | _, _, _, _, _, _ => none
  | _ => none

/-- RFC 1123 layout: a weekday name, `", "`, then the date/time part. -/
def parseRFC1123 (cs : List Char) : Option Int :=
  match cs with
  | w1 :: w2 :: w3 :: c4 :: c5 :: rest =>
    if c4 == ',' && c5 == ' ' && weekdayNames.contains [w1, w2, w3] then
      parseDateChars rest
    else none
  | _ => none

/-- Boundary model of Go `net/http.ParseTime` restricted to the primary
`http.TimeFormat` (RFC 1123 with a literal GMT zone), which is the
format HTTP servers emit; the RFC 850 and ANSI C fallback layouts are
not modelled. Returns nanoseconds since the Unix epoch. -/
def goParseTime (s : String) : Option Int := parseRFC1123 s.toList

/-- Translation of `ParseRetryAfter` (fn.go). The Go `switch` admits
301, 429 and 503 and returns 0 for every other status; then the
`Retry-After` header is read, an integer parse is tried first
(negative values give 0), then an HTTP-date parse (`date - now`),
and 0 when neither parse succeeds. -/
def ParseRetryAfter (resp : Response) (now : Int) : Int :=
  if resp.statusCode == 301 || resp.statusCode == 429 || resp.statusCode == 503 then
    let s := headerGet resp.header "Retry-After"
    if s == "" then 0
    else
      match goAtoi s with
      | some n => if n < 0 then 0 else n * second
      | none =>
        match goParseTime s with
        | some t => t - now
        | none => 0
  else 0

/-- Translation of `retriableStatuses` (transport.go): 429, 500, 503, 504. -/
def retriableStatuses : List Nat := [429, 500, 503, 504]

/-- Membership test standing for the Go map lookup
`retriableStatuses[resp.StatusCode]`. -/
def retriableStatus (code : Nat) : Bool := retriableStatuses.contains code

/-- Translation of `isTemporary` (transport.go): the error must implement
the `temporaryer` interface and its `Temporary()` must return true. -/
def isTemporary (e : Err) : Bool := e.asTemporaryer && e.temporary

/-- Result of one call to the inner transport, following the Go
`http.RoundTripper` convention that exactly one of response and error is
non-nil. -/
inductive RTResult
  | ok (r : Response)
  | fail (e : Err)
  deriving DecidableEq

/-- Observable actions of `RetriableTransport.RoundTrip`. The body
events exist so that the drain-before-retry property is expressible;
the translated loop never emits them because transport.go performs no
body read or close (only the comment `must read resp.Body` marks that
intent). -/
inductive Event
  | roundTrip
  | wait (ctx : Ctx) (result : Option Err)
  | setNext (d : Int)
  | readBody
  | closeBody
  deriving DecidableEq

/-- Translation of the `for` loop of `RetriableTransport.RoundTrip`
(transport.go). The inner transport is a script of results consumed one
per iteration; the waiter's `Wait` outcomes are given by `w` indexed by
the number of `Wait` calls made so far. An exhausted script yields
`([], none, none)`, a state the Go loop never reaches because its
transport can always be called again. Mirrors the source line by line:
a non-temporary error returns `(nil, err)`; a temporary error calls
`Wait` with `context.Background()` **discarding its result** and
continues; a non-retriable status returns `(resp, nil)`; a retriable
status calls `SetNext d` when `ParseRetryAfter` is positive, then
`Wait`, returning `(nil, err)` when `Wait` fails and looping
otherwise. -/
def roundTripLoop (w : Nat → Option Err) (now : Int) :
    List RTResult → Nat → List Event × Option Response × Option Err
  | [], _ => ([], none, none)
  | .fail e :: rest, i =>
    if !isTemporary e then ([.roundTrip], none, some e)
    else
      let next := roundTripLoop w now rest (i + 1)
      (.roundTrip :: .wait Ctx.background (w i) :: next.1, next.2)
  | .ok r :: rest, i =>
    if !retriableStatus r.statusCode then ([.roundTrip], some r, none)
    else
      let d := ParseRetryAfter r now
      let pre := if 0 < d then [Event.setNext d] else []
      match w i with
      | some e => (.roundTrip :: (pre ++ [.wait Ctx.background (some e)]), none, some e)
      | none =>
        let next := roundTripLoop w now rest (i + 1)
        (.roundTrip :: (pre ++ .wait Ctx.background none :: next.1), next.2)

/-- Translation of `RetriableTransport.RoundTrip` (transport.go): sets
`ctx := context.Background()` (the request's own context is never
consulted) and runs the loop with a fresh waiter. The `wg.Add/Done`
bookkeeping has no effect observable by the claims settled against this
function. -/
def RoundTrip (w : Nat → Option Err) (now : Int) (script : List RTResult)
    (_req : Request) : List Event × Option Response × Option Err :=
  roundTripLoop w now script 0

/-- Event classifier: calls to the inner transport. -/
def isRTEv : Event → Bool
  | .roundTrip => true
  | _ => false

/-- Event classifier: waiter `Wait` calls. -/
def isWaitEv : Event → Bool
  | .wait _ _ => true
  | _ => false

/-- Event classifier: waiter `SetNext` calls. -/
def isSetNextEv : Event → Bool
  | .setNext _ => true
  | _ => false

/-- Event classifier: body reads and closes. -/
def isBodyEv : Event → Bool
  | .readBody => true
  | .closeBody => true
  | _ => false

/-- True unless the event is a `Wait` performed with a context other
than `context.Background()`. -/
def waitUsesBackground : Event → Bool
  | .wait c _ => c.cancelled == false
  | _ => true

/-- Model of an `http.RoundTripper` for the composition claims: a print
trace together with the attempt result. -/
def GoRoundTripper := Request → List String × RTResult

/-- Model of a `Sender` (transport.go): receives the request and the
next round tripper down the chain. -/
def GoSender := Request → GoRoundTripper → List String × RTResult

/-- Boundary model of `http.DefaultTransport`: performs the real network
call; prints nothing. -/
def DefaultTransport : GoRoundTripper := fun _ => ([], .ok ⟨200, []⟩)

/-- Translation of `WithTransport` (transport.go): the returned round
tripper substitutes `http.DefaultTransport` for a nil parent at call
time, then delegates to the sender. -/
def WithTransport (p : GoSender) (t : Option GoRoundTripper) : GoRoundTripper :=
  fun req =>
    let next := match t with
      | some rt => rt
      | none => DefaultTransport
    p req next

/-- Translation of `ContinueWith` (transport.go): folds `WithTransport`
over the registered senders, last registration outermost; `t` is the
client's current transport field. -/
def ContinueWith (t : Option GoRoundTripper) (a : List GoSender) : Option GoRoundTripper :=
  a.foldl (fun t r => some (WithTransport r t)) t

/-- Model of `http.Client` dispatch: a nil transport field falls back to
`http.DefaultTransport`. -/
def runClient (t : Option GoRoundTripper) (req : Request) : List String × RTResult :=
  (match t with
   | some rt => rt
   | none => DefaultTransport) req

/-- A sender that prints an entry marker, delegates, then prints an exit
marker (the symmetric convention of the spec, as in
`ExampleContinueWith`). -/
def symWrapper (en ex : String) : GoSender :=
  fun req next =>
    let out := next req
    (en :: out.1 ++ [ex], out.2)

/-- A sender that prints only an entry marker before delegating (the
nested convention of the spec). -/
def entryWrapper (en : String) : GoSender :=
  fun req next =>
    let out := next req
    (en :: out.1, out.2)

/-- A digit run containing a comma never parses. -/
theorem digitsAcc_append_comma :
    ∀ (pre post : List Char) (acc : Nat), digitsAcc (pre ++ ',' :: post) acc = none := by
  intro pre
  induction pre with
  | nil =>
    intro post acc
    simp [digitsAcc, show (','.isDigit) = false from rfl]
  | cons c cs ih =>
    intro post acc
    show (if c.isDigit then digitsAcc (cs ++ ',' :: post) (acc * 10 + digitVal c)
          else none) = none
    split
    · exact ih post _
    · rfl

/-- A string accepted by the HTTP-date parser is rejected by the integer
parser: its fourth character is the comma after the weekday name. -/
theorem goAtoi_eq_none_of_goParseTime (s : String) (t : Int)
    (h : goParseTime s = some t) : goAtoi s = none := by
  unfold goParseTime parseRFC1123 at h
  rcases hl : s.toList with _ | ⟨w1, _ | ⟨w2, _ | ⟨w3, _ | ⟨c4, _ | ⟨c5, rest⟩⟩⟩⟩⟩ <;>
    rw [hl] at h
  · exact Option.noConfusion h
  · exact Option.noConfusion h
  · exact Option.noConfusion h
  · exact Option.noConfusion h
  · exact Option.noConfusion h
  · replace h : (if (c4 == ',' && c5 == ' ' && weekdayNames.contains [w1, w2, w3]) = true
        then parseDateChars rest else none) = some t := h
    by_cases hc : (c4 == ',' && c5 == ' ' && weekdayNames.contains [w1, w2, w3]) = true
    · have hc4 : c4 = ',' := by
        simp only [Bool.and_eq_true, beq_iff_eq] at hc
        exact hc.1.1
      subst hc4
      have hAtoi : goAtoi s =
          (if w1 == '+' then
            (digitsToNat (w2 :: w3 :: ',' :: c5 :: rest)).map (fun n => (n : Int))
          else if w1 == '-' then
            (digitsToNat (w2 :: w3 :: ',' :: c5 :: rest)).map (fun n => -(n : Int))
          else
            (digitsToNat (w1 :: w2 :: w3 :: ',' :: c5 :: rest)).map
              (fun n => (n : Int))) := by
        unfold goAtoi
        rw [hl]
      have h2 : digitsToNat (w2 :: w3 :: ',' :: c5 :: rest) = none :=
        digitsAcc_append_comma [w2, w3] (c5 :: rest) 0
      have h3 : digitsToNat (w1 :: w2 :: w3 :: ',' :: c5 :: rest) = none :=
        digitsAcc_append_comma [w1, w2, w3] (c5 :: rest) 0
      rw [hAtoi, h2, h3]
      simp
    · rw [if_neg hc] at h
      exact Option.noConfusion h

/-- Claim C2: `ParseRetryAfter` maps status 503 with header `"10"` to 10
seconds, `"-10"` to 0, `"aaa"` to 0; status 200 with any header to 0;
and status 503 with an HTTP-date header to exactly `date - now`, which
may be zero or negative for a past date. -/
theorem parseRetryAfter_cases (now : Int) (hdr : List (String × String))
    (s : String) (t : Int) :
    ParseRetryAfter ⟨503, [("Retry-After", "10")]⟩ now = 10 * second
    ∧ ParseRetryAfter ⟨503, [("Retry-After", "-10")]⟩ now = 0
    ∧ ParseRetryAfter ⟨503, [("Retry-After", "aaa")]⟩ now = 0
    ∧ ParseRetryAfter ⟨200, hdr⟩ now = 0
    ∧ (goParseTime s = some t →
        ParseRetryAfter ⟨503, [("Retry-After", s)]⟩ now = t - now) := by
  refine ⟨rfl, rfl, rfl, rfl, fun hp => ?_⟩
  have ha : goAtoi s = none := goAtoi_eq_none_of_goParseTime s t hp
  have hne : (s == "") = false := by
    cases hb : (s == "") with
    | false => rfl
    | true =>
      have hs : s = "" := eq_of_beq hb
      rw [hs, show goParseTime "" = none from rfl] at hp
      exact Option.noConfusion hp
  simp [ParseRetryAfter, headerGet, hne, ha, hp]

/-- Every iteration of the loop performs at least one inner call. -/
theorem roundTripLoop_one_call (w : Nat → Option Err) (now : Int) (x : RTResult)
    (rest : List RTResult) (i : Nat) :
    1 ≤ (roundTripLoop w now (x :: rest) i).1.countP isRTEv := by
  cases x with
  | fail e =>
    simp only [roundTripLoop]
    split
    · simp [isRTEv]
    · simp [List.countP_cons, isRTEv]
  | ok r =>
    simp only [roundTripLoop]
    split
    · simp [isRTEv]
    · cases hw : w i <;> simp [hw, List.countP_cons, isRTEv]

/-- The `SetNext` prefix contains no inner call. -/
theorem countP_isRTEv_pre (c : Prop) [Decidable c] (d : Int) :
    (if c then [Event.setNext d] else []).countP isRTEv = 0 := by
  split <;> simp [isRTEv]

/-- Claim C1: one step of the retry loop issues a further inner call
exactly when the attempt produced a temporary error or a status in
{429, 500, 503, 504}; a non-temporary error returns `(nil, err)`
unchanged and a non-retriable status returns `(resp, nil)`, in both
cases immediately and without any waiter interaction (the trace is the
single inner call). -/
theorem retry_classification_iff (w : Nat → Option Err) (now : Int) (req : Request)
    (e : Err) (r : Response) (rest : List RTResult) :
    (isTemporary e = false →
      RoundTrip w now (.fail e :: rest) req = ([.roundTrip], none, some e))
    ∧ (retriableStatus r.statusCode = false →
      RoundTrip w now (.ok r :: rest) req = ([.roundTrip], some r, none))
    ∧ (isTemporary e = true → rest ≠ [] →
      2 ≤ (RoundTrip w now (.fail e :: rest) req).1.countP isRTEv)
    ∧ (retriableStatus r.statusCode = true → w 0 = none → rest ≠ [] →
      2 ≤ (RoundTrip w now (.ok r :: rest) req).1.countP isRTEv) := by
  refine ⟨fun he => ?_, fun hr => ?_, fun he hne => ?_, fun hr hw hne => ?_⟩
  · show roundTripLoop w now (.fail e :: rest) 0 = _
    simp [roundTripLoop, he]
  · show roundTripLoop w now (.ok r :: rest) 0 = _
    simp [roundTripLoop, hr]
  · obtain ⟨y, rest', rfl⟩ : ∃ y rest', rest = y :: rest' := by
      cases rest with
      | nil => exact absurd rfl hne
      | cons y r => exact ⟨y, r, rfl⟩
    show 2 ≤ (roundTripLoop w now (.fail e :: y :: rest') 0).1.countP isRTEv
    have h1 := roundTripLoop_one_call w now y rest' 1
    simp only [roundTripLoop, he, Bool.not_true]
    simp only [if_neg (by simp : ¬((false : Bool) = true))]
    simp [List.countP_cons, isRTEv] at h1 ⊢
    exact h1
  · obtain ⟨y, rest', rfl⟩ : ∃ y rest', rest = y :: rest' := by
      cases rest with
      | nil => exact absurd rfl hne
      | cons y r => exact ⟨y, r, rfl⟩
    show 2 ≤ (roundTripLoop w now (.ok r :: y :: rest') 0).1.countP isRTEv
    have h1 := roundTripLoop_one_call w now y rest' 1
    simp only [roundTripLoop, hr, Bool.not_true]
    simp only [if_neg (by simp : ¬((false : Bool) = true)), hw]
    simp [List.countP_cons, List.countP_append, isRTEv, countP_isRTEv_pre] at h1 ⊢
    exact h1

/-- Concrete runs exercising all four parts of C1. -/
theorem retry_classification_iff_witness :
    RoundTrip (fun _ => none) 0 [.fail ⟨false, false⟩] ⟨⟨false⟩⟩
        = ([.roundTrip], none, some ⟨false, false⟩)
    ∧ RoundTrip (fun _ => none) 0 [.ok ⟨200, []⟩] ⟨⟨false⟩⟩
        = ([.roundTrip], some ⟨200, []⟩, none)
    ∧ 2 ≤ (RoundTrip (fun _ => none) 0 [.fail ⟨true, true⟩, .ok ⟨200, []⟩]
        ⟨⟨false⟩⟩).1.countP isRTEv
    ∧ 2 ≤ (RoundTrip (fun _ => none) 0 [.ok ⟨503, []⟩, .ok ⟨200, []⟩]
        ⟨⟨false⟩⟩).1.countP isRTEv :=
  ⟨(retry_classification_iff (fun _ => none) 0 ⟨⟨false⟩⟩ ⟨false, false⟩ ⟨200, []⟩ []).1
      rfl,
   (retry_classification_iff (fun _ => none) 0 ⟨⟨false⟩⟩ ⟨false, false⟩ ⟨200, []⟩ []).2.1
      rfl,
   (retry_classification_iff (fun _ => none) 0 ⟨⟨false⟩⟩ ⟨true, true⟩ ⟨200, []⟩
      [.ok ⟨200, []⟩]).2.2.1 rfl (List.cons_ne_nil _ _),
   (retry_classification_iff (fun _ => none) 0 ⟨⟨false⟩⟩ ⟨true, true⟩ ⟨503, []⟩
      [.ok ⟨200, []⟩]).2.2.2 rfl rfl (List.cons_ne_nil _ _)⟩

/-- The loop never produces a response together with an error. -/
theorem roundTripLoop_exclusive (w : Nat → Option Err) (now : Int) :
    ∀ (script : List RTResult) (i : Nat),
      ((roundTripLoop w now script i).2.1.isSome
        && (roundTripLoop w now script i).2.2.isSome) = false := by
  intro script
  induction script with
  | nil => intro i; rfl
  | cons x rest ih =>
    intro i
    cases x with
    | fail e =>
      simp only [roundTripLoop]
      split
      · rfl
      · exact ih (i + 1)
    | ok r =>
      simp only [roundTripLoop]
      split
      · rfl
      · cases hw : w i <;> simp only [hw] <;> first
          | rfl
          | exact ih (i + 1)

/-- Claim C10: `RetriableTransport.RoundTrip` never returns a non-nil
response together with a non-nil error; every error path carries a nil
response and every response path a nil error. -/
theorem roundTrip_resp_err_exclusive (w : Nat → Option Err) (now : Int)
    (script : List RTResult) (req : Request) :
    ((RoundTrip w now script req).2.1.isSome
      && (RoundTrip w now script req).2.2.isSome) = false :=
  roundTripLoop_exclusive w now script 0

/-- Every `Wait` in the loop trace is performed with
`context.Background()`. -/
theorem roundTripLoop_background (w : Nat → Option Err) (now : Int) :
    ∀ (script : List RTResult) (i : Nat),
      (roundTripLoop w now script i).1.all waitUsesBackground = true := by
  intro script
  induction script with
  | nil => intro i; rfl
  | cons x rest ih =>
    intro i
    cases x with
    | fail e =>
      simp only [roundTripLoop]
      split
      · rfl
      · simp [List.all_cons, waitUsesBackground, Ctx.background, ih (i + 1)]
    | ok r =>
      simp only [roundTripLoop]
      split
      · rfl
      · cases hw : w i <;>
          simp [hw, List.all_cons, List.all_append, waitUsesBackground,
            Ctx.background, isSetNextEv, ih (i + 1)]

/-- Amended claim C8: every backoff wait performed by
`RetriableTransport.RoundTrip` receives `context.Background()` — a fresh
never-cancelled context — rather than the request's own context, so
request-context cancellation is never observed by the waits. -/
theorem waits_use_background_ctx (w : Nat → Option Err) (now : Int)
    (script : List RTResult) (req : Request) :
    (RoundTrip w now script req).1.all waitUsesBackground = true :=
  roundTripLoop_background w now script 0

/-- Counterexample to claim C8 as stated: a request whose context is
already cancelled is retried after a temporary error; the single wait
runs under `context.Background()` (not cancelled, not the request's
context) and `RoundTrip` returns the later success instead of a
cancellation error. -/
theorem background_ctx_counterexample :
    RoundTrip (fun _ => none) 0 [.fail ⟨true, true⟩, .ok ⟨200, []⟩] ⟨⟨true⟩⟩
        = ([.roundTrip, .wait Ctx.background none, .roundTrip], some ⟨200, []⟩, none)
    ∧ (⟨⟨true⟩⟩ : Request).ctx.cancelled = true
    ∧ Ctx.background.cancelled = false := by
  refine ⟨by decide, rfl, rfl⟩

/-- With temporary failures on the first N attempts and a non-retriable
success on attempt N+1, the loop waits exactly N times and returns the
successful response unchanged — for any waiter, because the loop
discards `Wait` results on the temporary-error path. -/
theorem roundTripLoop_temp_then_ok (now : Int) (e : Err) (r : Response)
    (w : Nat → Option Err) (he : isTemporary e = true)
    (hr : retriableStatus r.statusCode = false) :
    ∀ (N i : Nat),
      (roundTripLoop w now (List.replicate N (.fail e) ++ [.ok r]) i).1.countP isWaitEv
          = N
      ∧ (roundTripLoop w now (List.replicate N (.fail e) ++ [.ok r]) i).2
          = (some r, none) := by
  intro N
  induction N with
  | zero =>
    intro i
    refine ⟨?_, ?_⟩
    · show (roundTripLoop w now [.ok r] i).1.countP isWaitEv = 0
      simp [roundTripLoop, hr, isWaitEv]
    · show (roundTripLoop w now [.ok r] i).2 = _
      simp [roundTripLoop, hr]
  | succ n ih =>
    intro i
    have hrep : List.replicate (n + 1) (RTResult.fail e) ++ [RTResult.ok r]
        = .fail e :: (List.replicate n (.fail e) ++ [.ok r]) := by
      simp [List.replicate_succ]
    rw [hrep]
    have hstep : roundTripLoop w now
          (.fail e :: (List.replicate n (.fail e) ++ [.ok r])) i
        = (.roundTrip :: .wait Ctx.background (w i) ::
            (roundTripLoop w now (List.replicate n (.fail e) ++ [.ok r]) (i + 1)).1,
           (roundTripLoop w now (List.replicate n (.fail e) ++ [.ok r]) (i + 1)).2) := by
      simp [roundTripLoop, he]
    rw [hstep]
    refine ⟨?_, (ih (i + 1)).2⟩
    simp [List.countP_cons, show isWaitEv Event.roundTrip = false from rfl,
      show ∀ c res, isWaitEv (Event.wait c res) = true from fun _ _ => rfl,
      (ih (i + 1)).1]

/-- Counterexample to claim C3 as stated: one temporary failure then a
success; the returned response is the inner transport's response
unchanged, with an empty header list, so it carries no header reporting
the one completed retry. -/
theorem retry_count_header_counterexample :
    RoundTrip (fun _ => none) 0 [.fail ⟨true, true⟩, .ok ⟨204, []⟩] ⟨⟨false⟩⟩
        = ([.roundTrip, .wait Ctx.background none, .roundTrip], some ⟨204, []⟩, none)
    ∧ (⟨204, []⟩ : Response).header = [] :=
  ⟨by decide, rfl⟩

/-- Amended claim C3: when the inner transport fails with a temporary
error on exactly the first N attempts and succeeds with a non-retriable
status on attempt N+1, `RoundTrip` invokes the waiter's `Wait` exactly N
times and returns the inner transport's successful response unchanged;
no retry-count header is stamped because the code writes no header at
all. -/
theorem retry_count_waits_exactly (N : Nat) (now : Int) (req : Request) (e : Err)
    (r : Response) (w : Nat → Option Err) (he : isTemporary e = true)
    (hr : retriableStatus r.statusCode = false) :
    (RoundTrip w now (List.replicate N (.fail e) ++ [.ok r]) req).1.countP isWaitEv = N
    ∧ (RoundTrip w now (List.replicate N (.fail e) ++ [.ok r]) req).2
        = (some r, none) :=
  roundTripLoop_temp_then_ok now e r w he hr N 0

/-- Concrete instantiation of amended C3 at N = 2. -/
theorem retry_count_waits_exactly_witness :
    (RoundTrip (fun _ => none) 0
        (List.replicate 2 (.fail ⟨true, true⟩) ++ [.ok ⟨200, []⟩])
        ⟨⟨false⟩⟩).1.countP isWaitEv = 2
    ∧ (RoundTrip (fun _ => none) 0
        (List.replicate 2 (.fail ⟨true, true⟩) ++ [.ok ⟨200, []⟩]) ⟨⟨false⟩⟩).2
      = (some ⟨200, []⟩, none) :=
  retry_count_waits_exactly 2 0 ⟨⟨false⟩⟩ ⟨true, true⟩ ⟨200, []⟩ (fun _ => none)
    rfl rfl

/-- Counterexample to claim C4 as stated: the waiter fails on its first
`Wait`, yet after a temporary transport error the loop discards that
error, performs a second attempt and returns the later success with a
nil error instead of the waiter's error. -/
theorem wait_error_ignored_counterexample :
    RoundTrip (fun _ => some ⟨false, true⟩) 0 [.fail ⟨true, true⟩, .ok ⟨201, []⟩]
        ⟨⟨false⟩⟩
      = ([.roundTrip, .wait Ctx.background (some ⟨false, true⟩), .roundTrip],
         some ⟨201, []⟩, none) := by decide

/-- Amended claim C4: a non-nil `Wait` error terminates the retry loop
and is returned with a nil response only when the wait followed a
retriable-status response; when the wait follows a temporary transport
error, the `Wait` error is discarded and the next attempt proceeds. -/
theorem wait_error_termination_amended (w : Nat → Option Err) (now : Int)
    (req : Request) (e we : Err) (r : Response) (rest : List RTResult)
    (hwe : w 0 = some we) :
    (retriableStatus r.statusCode = true →
      RoundTrip w now (.ok r :: rest) req
        = (.roundTrip ::
            ((if 0 < ParseRetryAfter r now then [Event.setNext (ParseRetryAfter r now)]
              else []) ++ [.wait Ctx.background (some we)]),
           none, some we))
    ∧ (isTemporary e = true → rest ≠ [] →
      (RoundTrip w now (.fail e :: rest) req).1.take 2
          = [.roundTrip, .wait Ctx.background (some we)]
      ∧ 2 ≤ (RoundTrip w now (.fail e :: rest) req).1.countP isRTEv) := by
  constructor
  · intro hr
    show roundTripLoop w now (.ok r :: rest) 0 = _
    simp [roundTripLoop, hr, hwe]
  · intro he hne
    obtain ⟨y, rest', rfl⟩ : ∃ y rest', rest = y :: rest' := by
      cases rest with
      | nil => exact absurd rfl hne
      | cons y r => exact ⟨y, r, rfl⟩
    have h1 := roundTripLoop_one_call w now y rest' 1
    constructor
    · show (roundTripLoop w now (.fail e :: y :: rest') 0).1.take 2 = _
      simp [roundTripLoop, he, hwe]
    · show 2 ≤ (roundTripLoop w now (.fail e :: y :: rest') 0).1.countP isRTEv
      simp only [roundTripLoop, he, Bool.not_true]
      simp only [if_neg (by simp : ¬((false : Bool) = true))]
      simp [List.countP_cons, isRTEv] at h1 ⊢
      exact h1

/-- Concrete instantiation of amended C4: both the retriable-status path
(which surfaces the waiter error) and the temporary-error path (which
retries past it). -/
theorem wait_error_termination_amended_witness :
    RoundTrip (fun _ => some ⟨false, true⟩) 0 [.ok ⟨504, []⟩] ⟨⟨false⟩⟩
      = (.roundTrip ::
          ((if 0 < ParseRetryAfter ⟨504, []⟩ 0 then [Event.setNext (ParseRetryAfter ⟨504, []⟩ 0)]
            else []) ++ [.wait Ctx.background (some ⟨false, true⟩)]),
         none, some ⟨false, true⟩)
    ∧ ((RoundTrip (fun _ => some ⟨false, true⟩) 0 [.fail ⟨true, true⟩, .ok ⟨200, []⟩]
          ⟨⟨false⟩⟩).1.take 2
        = [.roundTrip, .wait Ctx.background (some ⟨false, true⟩)]
      ∧ 2 ≤ (RoundTrip (fun _ => some ⟨false, true⟩) 0
          [.fail ⟨true, true⟩, .ok ⟨200, []⟩] ⟨⟨false⟩⟩).1.countP isRTEv) :=
  ⟨(wait_error_termination_amended (fun _ => some ⟨false, true⟩) 0 ⟨⟨false⟩⟩
      ⟨true, true⟩ ⟨false, true⟩ ⟨504, []⟩ [] rfl).1 rfl,
   (wait_error_termination_amended (fun _ => some ⟨false, true⟩) 0 ⟨⟨false⟩⟩
      ⟨true, true⟩ ⟨false, true⟩ ⟨504, []⟩ [.ok ⟨200, []⟩] rfl).2 rfl
      (List.cons_ne_nil _ _)⟩

/-- Counterexample to claim C5 as stated: a 500 response with
`Retry-After: 10` (retriable status, non-negative integer) and a 503
response with `Retry-After: 0` (retriable status, non-negative integer)
both produce a trace with no `SetNext` call at all. -/
theorem retry_after_override_counterexample :
    (RoundTrip (fun _ => none) 0 [.ok ⟨500, [("Retry-After", "10")]⟩, .ok ⟨200, []⟩]
        ⟨⟨false⟩⟩).1
      = [.roundTrip, .wait Ctx.background none, .roundTrip]
    ∧ (RoundTrip (fun _ => none) 0 [.ok ⟨503, [("Retry-After", "0")]⟩, .ok ⟨200, []⟩]
        ⟨⟨false⟩⟩).1
      = [.roundTrip, .wait Ctx.background none, .roundTrip] :=
  ⟨by decide, by decide⟩

/-- Amended claim C5: the override `SetNext (n seconds)` is applied
before the next wait exactly for a response whose status is 429 or 503
(the retriable statuses `ParseRetryAfter` recognizes) and whose
`Retry-After` header parses as a positive integer n; for n = 0, for
negative n, and for the retriable statuses 500 and 504 no override is
applied and the wait follows directly. -/
theorem retry_after_override_amended (w : Nat → Option Err) (now : Int)
    (req : Request) (r : Response) (rest : List RTResult) (n : Int)
    (hn : goAtoi (headerGet r.header "Retry-After") = some n) :
    ((r.statusCode = 429 ∨ r.statusCode = 503) → 0 < n →
      (RoundTrip w now (.ok r :: rest) req).1.take 3
        = [.roundTrip, .setNext (n * second), .wait Ctx.background (w 0)])
    ∧ ((r.statusCode = 500 ∨ r.statusCode = 504) →
      (RoundTrip w now (.ok r :: rest) req).1.take 2
        = [.roundTrip, .wait Ctx.background (w 0)])
    ∧ ((r.statusCode = 429 ∨ r.statusCode = 503) → n < 0 →
      (RoundTrip w now (.ok r :: rest) req).1.take 2
        = [.roundTrip, .wait Ctx.background (w 0)])
    ∧ ((r.statusCode = 429 ∨ r.statusCode = 503) → n = 0 →
      (RoundTrip w now (.ok r :: rest) req).1.take 2
        = [.roundTrip, .wait Ctx.background (w 0)]) := by
  have hsne : (headerGet r.header "Retry-After" == "") = false := by
    cases hb : (headerGet r.header "Retry-After" == "") with
    | false => rfl
    | true =>
      have hs := eq_of_beq hb
      rw [hs, show goAtoi "" = none from rfl] at hn
      exact Option.noConfusion hn
  refine ⟨fun hst hpos => ?_, fun hst => ?_, fun hst hneg => ?_, fun hst hzero => ?_⟩
  · have hr : retriableStatus r.statusCode = true := by
      rcases hst with h | h <;> rw [h] <;> rfl
    have hd : ParseRetryAfter r now = n * second := by
      rcases hst with h | h <;>
        · simp [ParseRetryAfter, h, hsne, hn]
          exact fun hlt => absurd hlt (by omega)
    have hns : (0 : Int) < n * second := by
      have hsec : (0 : Int) < second := by rw [second]; norm_num
      exact mul_pos hpos hsec
    show (roundTripLoop w now (.ok r :: rest) 0).1.take 3 = _
    cases hw : w 0 <;> simp [roundTripLoop, hr, hd, hw, hns]
  · have hr : retriableStatus r.statusCode = true := by
      rcases hst with h | h <;> rw [h] <;> rfl
    have hd : ParseRetryAfter r now = 0 := by
      rcases hst with h | h <;> simp [ParseRetryAfter, h]
    show (roundTripLoop w now (.ok r :: rest) 0).1.take 2 = _
    cases hw : w 0 <;> simp [roundTripLoop, hr, hd, hw]
  · have hr : retriableStatus r.statusCode = true := by
      rcases hst with h | h <;> rw [h] <;> rfl
    have hd : ParseRetryAfter r now = 0 := by
      rcases hst with h | h <;> simp [ParseRetryAfter, h, hsne, hn, hneg]
    show (roundTripLoop w now (.ok r :: rest) 0).1.take 2 = _
    cases hw : w 0 <;> simp [roundTripLoop, hr, hd, hw]
  · have hr : retriableStatus r.statusCode = true := by
      rcases hst with h | h <;> rw [h] <;> rfl
    have hd : ParseRetryAfter r now = 0 := by
      rcases hst with h | h <;> simp [ParseRetryAfter, h, hsne, hn, hzero]
    show (roundTripLoop w now (.ok r :: rest) 0).1.take 2 = _
    cases hw : w 0 <;> simp [roundTripLoop, hr, hd, hw]

/-- Concrete instantiation of amended C5: status 503 with header `"7"`
sets the override; status 500 with header `"7"`, status 503 with header
`"-3"`, and status 429 with header `"0"` do not. -/
theorem retry_after_override_amended_witness :
    (RoundTrip (fun _ => none) 0 [.ok ⟨503, [("Retry-After", "7")]⟩] ⟨⟨false⟩⟩).1.take 3
      = [.roundTrip, .setNext (7 * second), .wait Ctx.background none]
    ∧ (RoundTrip (fun _ => none) 0 [.ok ⟨500, [("Retry-After", "7")]⟩] ⟨⟨false⟩⟩).1.take 2
      = [.roundTrip, .wait Ctx.background none]
    ∧ (RoundTrip (fun _ => none) 0 [.ok ⟨503, [("Retry-After", "-3")]⟩] ⟨⟨false⟩⟩).1.take 2
      = [.roundTrip, .wait Ctx.background none]
    ∧ (RoundTrip (fun _ => none) 0 [.ok ⟨429, [("Retry-After", "0")]⟩] ⟨⟨false⟩⟩).1.take 2
      = [.roundTrip, .wait Ctx.background none] :=
  ⟨(retry_after_override_amended (fun _ => none) 0 ⟨⟨false⟩⟩
      ⟨503, [("Retry-After", "7")]⟩ [] 7 (by decide)).1 (Or.inr rfl) (by decide),
   (retry_after_override_amended (fun _ => none) 0 ⟨⟨false⟩⟩
      ⟨500, [("Retry-After", "7")]⟩ [] 7 (by decide)).2.1 (Or.inl rfl),
   (retry_after_override_amended (fun _ => none) 0 ⟨⟨false⟩⟩
      ⟨503, [("Retry-After", "-3")]⟩ [] (-3) (by decide)).2.2.1 (Or.inr rfl) (by decide),
   (retry_after_override_amended (fun _ => none) 0 ⟨⟨false⟩⟩
      ⟨429, [("Retry-After", "0")]⟩ [] 0 (by decide)).2.2.2 (Or.inl rfl) rfl⟩

/-- Claim C6: for every base sender and request, registering wrapper
groups [A, B] and then [C] with `ContinueWith` executes, under the
symmetric convention, in the order C-entry, B-entry, A-entry, inner
sender, A-exit, B-exit, C-exit; under the nested (entry-only)
convention the request-entry order is C, B, A, base. -/
theorem continueWith_ordering (base : GoRoundTripper) (req : Request)
    (a1 a2 b1 b2 c1 c2 : String) :
    runClient
        (ContinueWith (ContinueWith (some base) [symWrapper a1 a2, symWrapper b1 b2])
          [symWrapper c1 c2]) req
      = (c1 :: b1 :: a1 :: (base req).1 ++ [a2, b2, c2], (base req).2)
    ∧ runClient
        (ContinueWith (ContinueWith (some base) [entryWrapper a1, entryWrapper b1])
          [entryWrapper c1]) req
      = (c1 :: b1 :: a1 :: (base req).1, (base req).2) := by
  constructor <;>
    simp [runClient, ContinueWith, WithTransport, symWrapper, entryWrapper,
      List.foldl]

/-- Claim C7 evaluated at the failing input (the code contradicts the
spec and its own `must read resp.Body` comment): a 503 response is
discarded and a second inner call is issued, yet the trace contains no
body read and no body close anywhere. -/
theorem body_not_drained_on_retry :
    (RoundTrip (fun _ => none) 0 [.ok ⟨503, []⟩, .ok ⟨200, []⟩]
        ⟨⟨false⟩⟩).1.countP isRTEv = 2
    ∧ (RoundTrip (fun _ => none) 0 [.ok ⟨503, []⟩, .ok ⟨200, []⟩]
        ⟨⟨false⟩⟩).1.countP isBodyEv = 0 :=
  ⟨by decide, by decide⟩

/-- Modelled from the spec: the repository's `ClosableTransport` (the
LifecycleGuard of spec section 4.3) is exercised by
`TestClosableTransport` but its implementation file is not among the
provided sources. Its state is a closed flag plus an in-flight counter
shared by all requests through one instance. -/
structure ClosableTransport where
  closed : Bool
  inflight : Nat
  deriving DecidableEq

/-- Modelled from the spec: outcome of the admission check performed at
the top of `Send` — either the closed-resource rejection (state
untouched, inner sender never reached) or admission with the counter
incremented. -/
inductive GuardStep
  | rejected (s : ClosableTransport)
  | entered (s : ClosableTransport)
  deriving DecidableEq

/-- Modelled from the spec: `Send` checks the closed flag first; if set
it fails immediately with a closed-resource error and does not
increment the counter; otherwise it increments the counter and proceeds
to the inner sender. -/
def ClosableTransport.sendBegin (s : ClosableTransport) : GuardStep :=
  if s.closed then .rejected s else .entered { s with inflight := s.inflight + 1 }

/-- Modelled from the spec: the decrement performed on every exit path
of an admitted `Send`. -/
def ClosableTransport.sendFinish (s : ClosableTransport) : ClosableTransport :=
  { s with inflight := s.inflight - 1 }

/-- Modelled from the spec: `Close` sets the closed flag, then blocks
until the counter reaches zero. -/
def ClosableTransport.close (s : ClosableTransport) : ClosableTransport :=
  { s with closed := true }

/-- Draining the in-flight calls empties the counter. -/
theorem sendFinish_drain :
    ∀ (n : Nat) (s : ClosableTransport), s.inflight = n →
      (ClosableTransport.sendFinish^[n] s).inflight = 0 ∧
        (ClosableTransport.sendFinish^[n] s).closed = s.closed := by
  intro n
  induction n with
  | zero => intro s h; exact ⟨h, rfl⟩
  | succ k ih =>
    intro s h
    rw [Function.iterate_succ_apply]
    exact (ih (ClosableTransport.sendFinish s) (by simp [ClosableTransport.sendFinish, h]))

/-- Claim C9 (spec-modelled): once `Close` has set the closed flag,
every subsequent `Send` is rejected immediately with the state — and in
particular the in-flight counter — unchanged and the inner sender
unreached; `Close` twice equals `Close` once; and after the in-flight
calls finish, the counter `Close` blocks on is zero while the flag
stays set. -/
theorem closable_transport_spec (s : ClosableTransport) :
    (ClosableTransport.close s).closed = true
    ∧ (ClosableTransport.close s).sendBegin = .rejected (ClosableTransport.close s)
    ∧ (s.closed = true → s.sendBegin = .rejected s)
    ∧ ClosableTransport.close (ClosableTransport.close s) = ClosableTransport.close s
    ∧ (ClosableTransport.sendFinish^[s.inflight] (ClosableTransport.close s)).inflight
        = 0
    ∧ (ClosableTransport.sendFinish^[s.inflight] (ClosableTransport.close s)).closed
        = true := by
  have hdrain := sendFinish_drain s.inflight (ClosableTransport.close s)
    (by simp [ClosableTransport.close])
  refine ⟨rfl, ?_, fun hc => ?_, rfl, hdrain.1, hdrain.2⟩
  · simp [ClosableTransport.sendBegin, ClosableTransport.close]
  · simp [ClosableTransport.sendBegin, hc]

/-- Concrete instantiation of C9 on a closed guard with one in-flight
call. -/
theorem closable_transport_spec_witness :
    ClosableTransport.sendBegin ⟨true, 1⟩ = .rejected ⟨true, 1⟩
    ∧ ClosableTransport.close (ClosableTransport.close ⟨true, 1⟩)
        = ClosableTransport.close ⟨true, 1⟩
    ∧ (ClosableTransport.sendFinish^[(⟨true, 1⟩ : ClosableTransport).inflight]
        (ClosableTransport.close ⟨true, 1⟩)).inflight = 0 :=
  ⟨(closable_transport_spec ⟨true, 1⟩).2.2.1 rfl,
   (closable_transport_spec ⟨true, 1⟩).2.2.2.1,
   (closable_transport_spec ⟨true, 1⟩).2.2.2.2.1⟩

/-- Concrete instantiation of the HTTP-date branch of C2: a date one
second in the past yields a negative duration. -/
theorem parseRetryAfter_cases_witness :
    ParseRetryAfter ⟨503, [("Retry-After", "Sun, 20 May 2018 07:28:00 GMT")]⟩
        (1526801281 * second)
      = 1526801280 * second - 1526801281 * second :=
  (parseRetryAfter_cases (1526801281 * second) [] "Sun, 20 May 2018 07:28:00 GMT"
      (1526801280 * second)).2.2.2.2 (by decide)
